import Mathlib

/-!
Shallow embedding of `moarchiving/get_archive.py`: the archive-construction
front door of the `moarchiving` package.  The module exposes two factory
functions, `get_mo_archive` (unconstrained) and `get_cmo_archive`
(constrained), which
  * lazily resolve and cache the two hypervolume precision float types as
    attributes on the factory function itself (lines 30-39 and 105-114),
  * resolve the number of objectives `n_obj` from the optional inputs
    (lines 41-48 and 116-123),
  * cross-check `n_obj` against `list_of_f_vals` and `reference_point`,
    raising a `ValueError` on a vectors-vs-reference-point mismatch and
    emitting warnings on declared-count mismatches (lines 52-70, 127-145),
  * on the constrained path, check the f-list/g-list pairing
    (lines 147-152), and
  * dispatch to the dimension-specific constructor (lines 72-85) or to the
    single constrained constructor `CMOArchive` (lines 154-157).

Objective values and per-solution infos are opaque to this logic, so the
embedding is polymorphic in the value type `A` and the info type `I`.
Raised exceptions are modelled with `Except`; emitted warnings are returned
alongside the result, since a warning can be followed by a raise.
The per-dimension archive constructors are external collaborators: the
embedding records which constructor is invoked and with which arguments.
-/

namespace Moarchiving

/-- The two numeric types a hypervolume precision slot can bind to:
`fractions.Fraction` (arbitrary-precision rational) or Python `float`. -/
inductive FloatType : Type
  | fraction : FloatType
  | float : FloatType
deriving DecidableEq, Repr

/-- `resolveFloatType env` models `try: fractions.Fraction except: float`
(lines 31-34 etc.): `env` is true when the `fractions` module imported
successfully at module load. -/
def resolveFloatType (fractionsAvailable : Bool) : FloatType :=
  if fractionsAvailable then FloatType.fraction else FloatType.float

/-- The two lazily-initialized attributes hung off one factory function:
`hypervolume_final_float_type` and `hypervolume_computation_float_type`.
`none` models the attribute not yet existing (`hasattr` false). -/
structure PrecisionCache : Type where
  final_float_type : Option FloatType
  computation_float_type : Option FloatType
deriving DecidableEq, Repr

/-- Lines 30-39 (and 105-114): each attribute is set independently if not
already present, then both are read.  Returns the updated cache and the
pair (final type, computation type) used by the call. -/
def resolvePrecision (fractionsAvailable : Bool) (c : PrecisionCache) :
    PrecisionCache × FloatType × FloatType :=
  let f :=
    match c.final_float_type with
    | some t => t
    | none => resolveFloatType fractionsAvailable
  let comp :=
    match c.computation_float_type with
    | some t => t
    | none => resolveFloatType fractionsAvailable
  (PrecisionCache.mk (some f) (some comp), f, comp)

/-- The process-wide cached state: `get_mo_archive` and `get_cmo_archive`
each carry their own attribute slots. -/
structure GlobalState : Type where
  mo : PrecisionCache
  cmo : PrecisionCache
deriving DecidableEq, Repr

/-- The distinct exceptions `get_archive.py` can raise.  The first four are
`ValueError`s the spec classes as `InvalidConfiguration`; `unsupportedNObj`
is the `ValueError` of line 85 (`UnsupportedDimensionality`);
`noneTypeError` models the `TypeError` Python would raise at line 48 on
`len(None)` (shown unreachable below). -/
inductive MoError : Type
  | refVsFvalsMismatch : Nat → Nat → MoError
  | fValsRequired : MoError
  | gValsRequired : MoError
  | fgLengthMismatch : Nat → Nat → MoError
  | unsupportedNObj : Nat → MoError
  | noneTypeError : MoError
deriving DecidableEq, Repr

/-- The errors the spec groups under `InvalidConfiguration` (every raised
`ValueError` except the unsupported-dimensionality one). -/
def MoError.isInvalidConfiguration : MoError → Bool
  | MoError.refVsFvalsMismatch _ _ => true
  | MoError.fValsRequired => true
  | MoError.gValsRequired => true
  | MoError.fgLengthMismatch _ _ => true
  | _ => false

/-- The two warning messages of lines 57-70 (and 132-145): declared `n_obj`
disagreeing with `list_of_f_vals[0]`, resp. with `reference_point`. -/
inductive MoWarning : Type
  | nObjVsFvals : Nat → Nat → MoWarning
  | nObjVsRef : Nat → Nat → MoWarning
deriving DecidableEq, Repr

/-- Python `x is not None and len(x) > 0` for an optional list. -/
def isProvidedNonempty {B : Type} : Option (List B) → Bool
  | some (_ :: _) => true
  | _ => false

/-- Lines 41-48 (and 116-123): default `n_obj` to 2 when no signal is
present, else derive a missing `n_obj` from `list_of_f_vals[0]` or from
`reference_point`. -/
def resolve_n_obj {A : Type} (list_of_f_vals : Option (List (List A)))
    (reference_point : Option (List A)) (n_obj : Option Nat) : Except MoError Nat :=
  let n_obj1 : Option Nat :=
    if !isProvidedNonempty list_of_f_vals && n_obj.isNone && reference_point.isNone
    then some 2 else n_obj
  match n_obj1 with
  | some n => Except.ok n
  | none =>
    match list_of_f_vals with
    | some (v :: _) => Except.ok v.length
    | _ =>
      match reference_point with
      | some r => Except.ok r.length
      | none => Except.error MoError.noneTypeError

/-- Lines 52-70 (and 127-145): cross-check the resolved `n_obj` against the
provided collections.  A vectors-vs-reference-point length mismatch raises;
a disagreement of `n_obj` with the authoritative observed length emits a
warning and overrides `n_obj`. -/
def validate_n_obj {A : Type} (list_of_f_vals : Option (List (List A)))
    (reference_point : Option (List A)) (n : Nat) :
    Except MoError (List MoWarning × Nat) :=
  match list_of_f_vals, reference_point with
  | some (v :: _), some r =>
    if r.length ≠ v.length then Except.error (MoError.refVsFvalsMismatch r.length v.length)
    else if n ≠ v.length then Except.ok ([MoWarning.nObjVsFvals n v.length], v.length)
    else Except.ok ([], n)
  | some (v :: _), none =>
    if n ≠ v.length then Except.ok ([MoWarning.nObjVsFvals n v.length], v.length)
    else Except.ok ([], n)
  | _, some r =>
    if n ≠ r.length then Except.ok ([MoWarning.nObjVsRef n r.length], r.length)
    else Except.ok ([], n)
  | _, none => Except.ok ([], n)

/-- Resolution followed by validation: the value `n_obj` holds when control
reaches line 72 (resp. line 147), with the warnings emitted on the way. -/
def mo_resolved_n_obj {A : Type} (list_of_f_vals : Option (List (List A)))
    (reference_point : Option (List A)) (n_obj : Option Nat) :
    Except MoError (List MoWarning × Nat) :=
  match resolve_n_obj list_of_f_vals reference_point n_obj with
  | Except.error e => Except.error e
  | Except.ok n => validate_n_obj list_of_f_vals reference_point n

/-- Which dimension-specific archive constructor the unconstrained path
invoked: `MOArchive2d` (`BiobjectiveNondominatedSortedList`), `MOArchive3d`
or `MOArchive4d`. -/
inductive MoDispatch : Type
  | archive2d : MoDispatch
  | archive3d : MoDispatch
  | archive4d : MoDispatch
deriving DecidableEq, Repr

/-- The constructor invocation `get_mo_archive` returns: which constructor
was selected and the arguments passed to it (lines 72-83). -/
structure MoResult (A I : Type) : Type where
  dispatch : MoDispatch
  list_of_f_vals : Option (List (List A))
  reference_point : Option (List A)
  infos : Option (List I)
  hypervolume_final_float_type : FloatType
  hypervolume_computation_float_type : FloatType
deriving DecidableEq, Repr

/-- Lines 72-85: dispatch on the resolved `n_obj`; any value outside
{2, 3, 4} raises `ValueError` (unsupported number of objectives). -/
def dispatch_mo {A I : Type} (n : Nat) (list_of_f_vals : Option (List (List A)))
    (reference_point : Option (List A)) (infos : Option (List I))
    (ff cf : FloatType) : Except MoError (MoResult A I) :=
  if n = 2 then
    Except.ok (MoResult.mk MoDispatch.archive2d list_of_f_vals reference_point infos ff cf)
  else if n = 3 then
    Except.ok (MoResult.mk MoDispatch.archive3d list_of_f_vals reference_point infos ff cf)
  else if n = 4 then
    Except.ok (MoResult.mk MoDispatch.archive4d list_of_f_vals reference_point infos ff cf)
  else Except.error (MoError.unsupportedNObj n)

/-- `get_mo_archive` (lines 16-85): resolve/cache precision types, resolve
and validate `n_obj`, then dispatch.  Returns the updated process state,
the warnings emitted, and either the constructor invocation or the raised
error. -/
def get_mo_archive {A I : Type} (fractionsAvailable : Bool) (st : GlobalState)
    (list_of_f_vals : Option (List (List A))) (reference_point : Option (List A))
    (infos : Option (List I)) (n_obj : Option Nat) :
    GlobalState × List MoWarning × Except MoError (MoResult A I) :=
  let pr := resolvePrecision fractionsAvailable st.mo
  (GlobalState.mk pr.1 st.cmo,
    match mo_resolved_n_obj list_of_f_vals reference_point n_obj with
    | Except.error e => ([], Except.error e)
    | Except.ok (ws, n) =>
      (ws, dispatch_mo n list_of_f_vals reference_point infos pr.2.1 pr.2.2))

/-- Lines 147-152: the f-list/g-list pairing checks of the constrained
path, in source order.  Note they test `is None`, so an empty-but-provided
list counts as present here. -/
def cmo_pairing_check {A : Type} (list_of_f_vals list_of_g_vals : Option (List (List A))) :
    Except MoError Unit :=
  match list_of_f_vals, list_of_g_vals with
  | none, some _ => Except.error MoError.fValsRequired
  | some _, none => Except.error MoError.gValsRequired
  | some fs, some gs =>
    if fs.length ≠ gs.length then Except.error (MoError.fgLengthMismatch fs.length gs.length)
    else Except.ok ()
  | none, none => Except.ok ()

/-- The constructor invocation `get_cmo_archive` returns: the arguments
passed to the single constrained constructor `CMOArchive` (lines 154-157),
including the resolved `n_obj` and the pass-through `tau`. -/
structure CmoResult (A I : Type) : Type where
  list_of_f_vals : Option (List (List A))
  list_of_g_vals : Option (List (List A))
  reference_point : Option (List A)
  infos : Option (List I)
  n_obj : Nat
  tau : ℚ
  hypervolume_final_float_type : FloatType
  hypervolume_computation_float_type : FloatType
deriving DecidableEq, Repr

/-- `get_cmo_archive` (lines 88-157): same precision caching (own slots)
and `n_obj` resolution/validation as `get_mo_archive`, then the pairing
checks, then a single dimension-independent call to `CMOArchive`. -/
def get_cmo_archive {A I : Type} (fractionsAvailable : Bool) (st : GlobalState)
    (list_of_f_vals list_of_g_vals : Option (List (List A)))
    (reference_point : Option (List A)) (infos : Option (List I))
    (n_obj : Option Nat) (tau : ℚ) :
    GlobalState × List MoWarning × Except MoError (CmoResult A I) :=
  let pr := resolvePrecision fractionsAvailable st.cmo
  (GlobalState.mk st.mo pr.1,
    match mo_resolved_n_obj list_of_f_vals reference_point n_obj with
    | Except.error e => ([], Except.error e)
    | Except.ok (ws, n) =>
      match cmo_pairing_check list_of_f_vals list_of_g_vals with
      | Except.error e => (ws, Except.error e)
      | Except.ok _ =>
        (ws, Except.ok (CmoResult.mk list_of_f_vals list_of_g_vals reference_point
          infos n tau pr.2.1 pr.2.2)))

/-- The fresh process state: no precision attribute set on either factory
function yet. -/
def initialState : GlobalState :=
  GlobalState.mk (PrecisionCache.mk none none) (PrecisionCache.mk none none)

/-- Did the call raise one of the errors the spec classes as
`InvalidConfiguration`? -/
def failsInvalidConfig {B : Type} : Except MoError B → Bool
  | Except.error e => e.isInvalidConfiguration
  | Except.ok _ => false

/-- Resolution (lines 41-48) is total: it returns the declared count if
given, else the first vector's length, else the reference point's length,
else the default 2.  In particular the `len(None)` `TypeError` of line 48
is unreachable. -/
lemma resolve_n_obj_spec {A : Type} (f : Option (List (List A)))
    (r : Option (List A)) (n_obj : Option Nat) :
    resolve_n_obj f r n_obj =
      Except.ok (match n_obj, f, r with
        | some n, _, _ => n
        | none, some (v :: _), _ => v.length
        | none, _, some rp => rp.length
        | none, _, none => 2) := by
  rcases n_obj with _ | n <;> rcases f with _ | (_ | ⟨v, vs⟩) <;> rcases r with _ | rp <;> rfl

/-- Every error raised during validation is one the spec classes as
`InvalidConfiguration`. -/
lemma validate_n_obj_error_invalid {A : Type} (f : Option (List (List A)))
    (r : Option (List A)) (n : Nat) (e : MoError)
    (h : validate_n_obj f r n = Except.error e) : e.isInvalidConfiguration = true := by
  rcases f with _ | (_ | ⟨v, vs⟩) <;> rcases r with _ | rp <;>
      simp only [validate_n_obj] at h <;> try split_ifs at h
  all_goals first
    | exact Except.noConfusion h
    | (injection h with h2; subst h2; rfl)

/-- Every error raised during resolution plus validation is one the spec
classes as `InvalidConfiguration`. -/
lemma mo_resolved_error_invalid {A : Type} (f : Option (List (List A)))
    (r : Option (List A)) (n_obj : Option Nat) (e : MoError)
    (h : mo_resolved_n_obj f r n_obj = Except.error e) : e.isInvalidConfiguration = true := by
  unfold mo_resolved_n_obj at h
  rw [resolve_n_obj_spec] at h
  exact validate_n_obj_error_invalid _ _ _ _ h

/-- Every error raised by the f-list/g-list pairing checks is one the spec
classes as `InvalidConfiguration`. -/
lemma cmo_pairing_error_invalid {A : Type} (f g : Option (List (List A))) (e : MoError)
    (h : cmo_pairing_check f g = Except.error e) : e.isInvalidConfiguration = true := by
  rcases f with _ | fs <;> rcases g with _ | gs <;>
      simp only [cmo_pairing_check] at h <;> try split_ifs at h
  all_goals first
    | exact Except.noConfusion h
    | (injection h with h2; subst h2; rfl)

/-- When the f-list is absent or empty, resolution plus validation always
succeeds (the only hard error needs a non-empty f-list). -/
lemma mo_resolved_ok_of_not_nonempty {A : Type} (f : Option (List (List A)))
    (r : Option (List A)) (n_obj : Option Nat) (hf : isProvidedNonempty f = false) :
    ∃ ws n, mo_resolved_n_obj f r n_obj = Except.ok (ws, n) := by
  unfold mo_resolved_n_obj
  rw [resolve_n_obj_spec]
  rcases f with _ | (_ | ⟨v, vs⟩) <;> rcases r with _ | rp <;>
    simp only [validate_n_obj] <;> first
      | (split_ifs <;> exact ⟨_, _, rfl⟩)
      | exact ⟨_, _, rfl⟩
      | simp [isProvidedNonempty] at hf

/-- C1: whenever the objective-vector list is non-empty and a reference
point is present with a length different from the first objective vector's
length, both `get_mo_archive` and `get_cmo_archive` raise the
vectors-vs-reference-point `ValueError` (an `InvalidConfiguration`), so no
archive constructor is invoked and no archive is returned. -/
theorem C1_ref_fvals_mismatch_aborts_both {A I : Type} (env : Bool) (st : GlobalState)
    (v : List A) (vs : List (List A)) (r : List A) (infos : Option (List I))
    (n_obj : Option Nat) (g : Option (List (List A))) (tau : ℚ)
    (h : r.length ≠ v.length) :
    (get_mo_archive env st (some (v :: vs)) (some r) infos n_obj).2.2
        = Except.error (MoError.refVsFvalsMismatch r.length v.length)
      ∧ (get_cmo_archive env st (some (v :: vs)) g (some r) infos n_obj tau).2.2
        = Except.error (MoError.refVsFvalsMismatch r.length v.length)
      ∧ (MoError.refVsFvalsMismatch r.length v.length).isInvalidConfiguration = true := by
  have hres : mo_resolved_n_obj (some (v :: vs)) (some r) n_obj
      = Except.error (MoError.refVsFvalsMismatch r.length v.length) := by
    unfold mo_resolved_n_obj
    rw [resolve_n_obj_spec]
    rcases n_obj with _ | n <;> simp [validate_n_obj, h]
  exact ⟨by simp [get_mo_archive, hres], by simp [get_cmo_archive, hres], rfl⟩

/-- C1 witness: a concrete 2-element first vector against a 3-element
reference point fails on both entry points. -/
theorem C1_witness :
    (get_mo_archive true initialState (some [[(1:Int), 2]]) (some [1, 2, 3])
        (none : Option (List Unit)) none).2.2
      = Except.error (MoError.refVsFvalsMismatch 3 2)
    ∧ (get_cmo_archive true initialState (some [[(1:Int), 2]]) none (some [1, 2, 3])
        (none : Option (List Unit)) none 1).2.2
      = Except.error (MoError.refVsFvalsMismatch 3 2)
    ∧ (MoError.refVsFvalsMismatch 3 2).isInvalidConfiguration = true :=
  C1_ref_fvals_mismatch_aborts_both true initialState [(1:Int), 2] [] [1, 2, 3]
    (none : Option (List Unit)) none none 1 (by decide)

/-- C2: on the unconstrained entry point, for any input whose resolution
plus validation succeeds with count `n`, the dispatcher invokes the
bi-objective constructor when `n = 2`, the tri-objective one when `n = 3`,
the quad-objective one when `n = 4`, and raises the unsupported-number-of-
objectives `ValueError` for every other `n`. -/
theorem C2_unconstrained_dispatch_table {A I : Type} (env : Bool) (st : GlobalState)
    (f : Option (List (List A))) (r : Option (List A)) (infos : Option (List I))
    (n_obj : Option Nat) (ws : List MoWarning) (n : Nat)
    (h : mo_resolved_n_obj f r n_obj = Except.ok (ws, n)) :
    (n = 2 → (get_mo_archive env st f r infos n_obj).2.2
      = Except.ok (MoResult.mk MoDispatch.archive2d f r infos
          (resolvePrecision env st.mo).2.1 (resolvePrecision env st.mo).2.2))
    ∧ (n = 3 → (get_mo_archive env st f r infos n_obj).2.2
      = Except.ok (MoResult.mk MoDispatch.archive3d f r infos
          (resolvePrecision env st.mo).2.1 (resolvePrecision env st.mo).2.2))
    ∧ (n = 4 → (get_mo_archive env st f r infos n_obj).2.2
      = Except.ok (MoResult.mk MoDispatch.archive4d f r infos
          (resolvePrecision env st.mo).2.1 (resolvePrecision env st.mo).2.2))
    ∧ (n ≠ 2 → n ≠ 3 → n ≠ 4 → (get_mo_archive env st f r infos n_obj).2.2
      = Except.error (MoError.unsupportedNObj n)) := by
  refine ⟨?_, ?_, ?_, ?_⟩
  · intro h2; subst h2; simp [get_mo_archive, h, dispatch_mo]
  · intro h3; subst h3; simp [get_mo_archive, h, dispatch_mo]
  · intro h4; subst h4; simp [get_mo_archive, h, dispatch_mo]
  · intro h2 h3 h4; simp [get_mo_archive, h, dispatch_mo, h2, h3, h4]

/-- C2 witness: a single 3-dimensional vector resolves to count 3 and
dispatches the tri-objective constructor. -/
theorem C2_witness :
    (get_mo_archive true initialState (some [[(1:Int), 2, 3]]) none
        (none : Option (List Unit)) none).2.2
      = Except.ok (MoResult.mk MoDispatch.archive3d (some [[(1:Int), 2, 3]]) none
          (none : Option (List Unit)) FloatType.fraction FloatType.fraction) :=
  (C2_unconstrained_dispatch_table true initialState (some [[(1:Int), 2, 3]]) none
    (none : Option (List Unit)) none [] 3 rfl).2.1 rfl

/-- C7: with no declared count, the count is derived from the first
objective vector's length when the vector list is non-empty (whatever the
reference point), and otherwise from the reference point's length when one
is present; with a non-empty vector list, no reference point and no
declared count, resolution plus validation yields that length with no
warning emitted. -/
theorem C7_count_derived_from_data {A : Type} (I : Type) :
    (∀ (v : List A) (vs : List (List A)) (r : Option (List A)),
      resolve_n_obj (some (v :: vs)) r none = Except.ok v.length)
    ∧ (∀ (f : Option (List (List A))) (r : List A),
      isProvidedNonempty f = false →
      resolve_n_obj f (some r) none = Except.ok r.length)
    ∧ (∀ (v : List A) (vs : List (List A)),
      mo_resolved_n_obj (some (v :: vs)) none none = Except.ok ([], v.length))
    ∧ (∀ (env : Bool) (st : GlobalState) (v : List A) (vs : List (List A))
        (infos : Option (List I)),
      (get_mo_archive env st (some (v :: vs)) none infos none).2.1 = []) := by
  have h3 : ∀ (v : List A) (vs : List (List A)),
      mo_resolved_n_obj (some (v :: vs)) none none = Except.ok ([], v.length) := by
    intro v vs
    unfold mo_resolved_n_obj
    rw [resolve_n_obj_spec]
    simp [validate_n_obj]
  refine ⟨?_, ?_, h3, ?_⟩
  · intro v vs r; rcases r with _ | rp <;> rw [resolve_n_obj_spec]
  · intro f r hf
    rcases f with _ | (_ | ⟨v, vs⟩)
    · rfl
    · rfl
    · simp [isProvidedNonempty] at hf
  · intro env st v vs infos
    simp [get_mo_archive, h3 v vs]

/-- C7 witness: `resolve_n_obj` on an absent vector list with reference
point `[1, 2, 3]` and no declared count returns 3, and a non-empty vector
list with neither reference point nor declared count yields its first
vector's length with no warning. -/
theorem C7_witness :
    resolve_n_obj (none : Option (List (List Int))) (some [(1:Int), 2, 3]) none
      = Except.ok 3
    ∧ mo_resolved_n_obj (some [[(1:Int), 2], [3, 4]]) none none = Except.ok ([], 2) :=
  ⟨(C7_count_derived_from_data Unit).2.1 none [(1:Int), 2, 3] rfl,
   (C7_count_derived_from_data (A := Int) Unit).2.2.1 [(1:Int), 2] [[3, 4]]⟩

/-- C9: on the unconstrained entry point, an absent-or-empty vector list,
absent declared count and a present but empty reference point resolve the
count to 0 (the default of 2 does not apply since a reference point is
present), and construction fails with the unsupported-number-of-objectives
`ValueError`. -/
theorem C9_empty_reference_point_unsupported {A I : Type} (env : Bool) (st : GlobalState)
    (f : Option (List (List A))) (infos : Option (List I))
    (hf : isProvidedNonempty f = false) :
    resolve_n_obj f (some ([] : List A)) none = Except.ok 0
    ∧ (get_mo_archive env st f (some ([] : List A)) infos none).2.2
        = Except.error (MoError.unsupportedNObj 0) := by
  have hres : mo_resolved_n_obj f (some ([] : List A)) none = Except.ok ([], 0) := by
    unfold mo_resolved_n_obj
    rw [resolve_n_obj_spec]
    rcases f with _ | (_ | ⟨v, vs⟩)
    · simp [validate_n_obj]
    · simp [validate_n_obj]
    · simp [isProvidedNonempty] at hf
  constructor
  · rw [resolve_n_obj_spec]
    rcases f with _ | (_ | ⟨v, vs⟩)
    · rfl
    · rfl
    · simp [isProvidedNonempty] at hf
  · simp [get_mo_archive, hres, dispatch_mo]

/-- C9 witness: `get_mo_archive` with everything absent except an empty
reference point resolves to 0 objectives and raises. -/
theorem C9_witness :
    resolve_n_obj (none : Option (List (List Int))) (some ([] : List Int)) none
      = Except.ok 0
    ∧ (get_mo_archive true initialState (none : Option (List (List Int)))
        (some ([] : List Int)) (none : Option (List Unit)) none).2.2
      = Except.error (MoError.unsupportedNObj 0) :=
  C9_empty_reference_point_unsupported true initialState none
    (none : Option (List Unit)) rfl

/-- C10: on the constrained entry point an empty-but-provided objective
list is treated as absent by dimension resolution (same resolved count as
an absent list) yet as present by the pairing checks: with an absent
constraint list the call raises the g-list-required `ValueError` instead of
constructing an empty archive. -/
theorem C10_empty_fvals_pairing_error {A I : Type} (env : Bool) (st : GlobalState)
    (r : Option (List A)) (infos : Option (List I)) (n_obj : Option Nat) (tau : ℚ) :
    resolve_n_obj (some ([] : List (List A))) r n_obj
      = resolve_n_obj (none : Option (List (List A))) r n_obj
    ∧ (get_cmo_archive env st (some ([] : List (List A))) none r infos n_obj tau).2.2
        = Except.error MoError.gValsRequired
    ∧ MoError.gValsRequired.isInvalidConfiguration = true := by
  refine ⟨?_, ?_, rfl⟩
  · rw [resolve_n_obj_spec, resolve_n_obj_spec]
    rcases n_obj with _ | n <;> rcases r with _ | rp <;> rfl
  · obtain ⟨ws, n, hres⟩ := mo_resolved_ok_of_not_nonempty
      (some ([] : List (List A))) r n_obj rfl
    simp [get_cmo_archive, hres, cmo_pairing_check]

/-- C3: when a declared count disagrees with the observed data — the first
objective vector's length for a non-empty vector list (itself compatible
with any present reference point), or else the reference point's length
when the vector list is absent or empty — the matching warning is emitted,
no hard error is raised, and the count handed to dispatch is the observed
length, not the declared one. -/
theorem C3_declared_count_mismatch_warns {A I : Type} :
    (∀ (env : Bool) (st : GlobalState) (v : List A) (vs : List (List A))
        (r : Option (List A)) (infos : Option (List I)) (n : Nat),
      n ≠ v.length → (∀ rp, r = some rp → rp.length = v.length) →
      mo_resolved_n_obj (some (v :: vs)) r (some n)
          = Except.ok ([MoWarning.nObjVsFvals n v.length], v.length)
        ∧ get_mo_archive env st (some (v :: vs)) r infos (some n)
          = (GlobalState.mk (resolvePrecision env st.mo).1 st.cmo,
             [MoWarning.nObjVsFvals n v.length],
             dispatch_mo v.length (some (v :: vs)) r infos
               (resolvePrecision env st.mo).2.1 (resolvePrecision env st.mo).2.2))
    ∧ (∀ (env : Bool) (st : GlobalState) (f : Option (List (List A)))
        (r : List A) (infos : Option (List I)) (n : Nat),
      isProvidedNonempty f = false → n ≠ r.length →
      mo_resolved_n_obj f (some r) (some n)
          = Except.ok ([MoWarning.nObjVsRef n r.length], r.length)
        ∧ get_mo_archive env st f (some r) infos (some n)
          = (GlobalState.mk (resolvePrecision env st.mo).1 st.cmo,
             [MoWarning.nObjVsRef n r.length],
             dispatch_mo r.length f (some r) infos
               (resolvePrecision env st.mo).2.1 (resolvePrecision env st.mo).2.2)) := by
  constructor
  · intro env st v vs r infos n hn hr
    have hres : mo_resolved_n_obj (some (v :: vs)) r (some n)
        = Except.ok ([MoWarning.nObjVsFvals n v.length], v.length) := by
      unfold mo_resolved_n_obj
      rw [resolve_n_obj_spec]
      rcases r with _ | rp
      · simp [validate_n_obj, hn]
      · have := hr rp rfl
        simp [validate_n_obj, hn, this]
    exact ⟨hres, by simp [get_mo_archive, hres]⟩
  · intro env st f r infos n hf hn
    have hres : mo_resolved_n_obj f (some r) (some n)
        = Except.ok ([MoWarning.nObjVsRef n r.length], r.length) := by
      unfold mo_resolved_n_obj
      rw [resolve_n_obj_spec]
      rcases f with _ | (_ | ⟨v, vs⟩)
      · simp [validate_n_obj, hn]
      · simp [validate_n_obj, hn]
      · simp [isProvidedNonempty] at hf
    exact ⟨hres, by simp [get_mo_archive, hres]⟩

/-- C3 witness: declared count 2 against a 3-dimensional first vector warns
and dispatches on 3; declared count 2 against a 4-dimensional reference
point (no vectors) warns and dispatches on 4. -/
theorem C3_witness :
    (mo_resolved_n_obj (some [[(1:Int), 2, 3]]) none (some 2)
        = Except.ok ([MoWarning.nObjVsFvals 2 3], 3)
      ∧ get_mo_archive true initialState (some [[(1:Int), 2, 3]]) none
          (none : Option (List Unit)) (some 2)
        = (GlobalState.mk (resolvePrecision true initialState.mo).1 initialState.cmo,
           [MoWarning.nObjVsFvals 2 3],
           dispatch_mo 3 (some [[(1:Int), 2, 3]]) none (none : Option (List Unit))
             (resolvePrecision true initialState.mo).2.1
             (resolvePrecision true initialState.mo).2.2))
    ∧ (mo_resolved_n_obj (none : Option (List (List Int))) (some [(1:Int), 1, 1, 1]) (some 2)
        = Except.ok ([MoWarning.nObjVsRef 2 4], 4)
      ∧ get_mo_archive true initialState (none : Option (List (List Int)))
          (some [(1:Int), 1, 1, 1]) (none : Option (List Unit)) (some 2)
        = (GlobalState.mk (resolvePrecision true initialState.mo).1 initialState.cmo,
           [MoWarning.nObjVsRef 2 4],
           dispatch_mo 4 (none : Option (List (List Int))) (some [(1:Int), 1, 1, 1])
             (none : Option (List Unit))
             (resolvePrecision true initialState.mo).2.1
             (resolvePrecision true initialState.mo).2.2)) :=
  ⟨(C3_declared_count_mismatch_warns (A := Int) (I := Unit)).1 true initialState
      [(1:Int), 2, 3] [] none none 2 (by decide) (fun rp h => by cases h),
   (C3_declared_count_mismatch_warns (A := Int) (I := Unit)).2 true initialState
      none [(1:Int), 1, 1, 1] none 2 rfl (by decide)⟩

/-- C4 counterexample: with the objective-vector list, declared count and
reference point all absent, the constrained entry point still raises (the
f-list-required `ValueError`) when a constraint list is supplied, so "no
error is raised" fails as a statement about every constrained call meeting
the claim's conditions. -/
theorem C4_counterexample :
    (get_cmo_archive true initialState (none : Option (List (List Int))) (some [[1]])
        none (none : Option (List Unit)) none 1).2.2
      = Except.error MoError.fValsRequired := rfl

/-- C4 (amended): with the objective-vector list absent or empty, the
declared count absent and the reference point absent, the count resolves
to the default 2 on both entry points; the unconstrained path dispatches
the bi-objective constructor with no warning and no error, and the
constrained path raises no error — invoking the single constrained
constructor with count 2 — exactly when the f-list/g-list pairing check
passes, failing with that check's `ValueError` otherwise. -/
theorem C4_default_two_dispatch {A I : Type} (env : Bool) (st : GlobalState)
    (f g : Option (List (List A))) (infos : Option (List I)) (tau : ℚ)
    (hf : isProvidedNonempty f = false) :
    resolve_n_obj f (none : Option (List A)) none = Except.ok 2
    ∧ get_mo_archive env st f none infos none
      = (GlobalState.mk (resolvePrecision env st.mo).1 st.cmo, [],
         Except.ok (MoResult.mk MoDispatch.archive2d f none infos
           (resolvePrecision env st.mo).2.1 (resolvePrecision env st.mo).2.2))
    ∧ (∀ u : Unit, cmo_pairing_check f g = Except.ok u →
        (get_cmo_archive env st f g none infos none tau).2.2
          = Except.ok (CmoResult.mk f g none infos 2 tau
              (resolvePrecision env st.cmo).2.1 (resolvePrecision env st.cmo).2.2))
    ∧ (∀ e : MoError, cmo_pairing_check f g = Except.error e →
        (get_cmo_archive env st f g none infos none tau).2.2 = Except.error e) := by
  have hres : mo_resolved_n_obj f (none : Option (List A)) none = Except.ok ([], 2) := by
    unfold mo_resolved_n_obj
    rw [resolve_n_obj_spec]
    rcases f with _ | (_ | ⟨v, vs⟩)
    · rfl
    · rfl
    · simp [isProvidedNonempty] at hf
  refine ⟨?_, ?_, ?_, ?_⟩
  · rw [resolve_n_obj_spec]
    rcases f with _ | (_ | ⟨v, vs⟩)
    · rfl
    · rfl
    · simp [isProvidedNonempty] at hf
  · simp [get_mo_archive, hres, dispatch_mo]
  · intro u hu; simp [get_cmo_archive, hres, hu]
  · intro e he; simp [get_cmo_archive, hres, he]

/-- C4 (amended) witness: everything absent defaults to 2 on both entry
points; the unconstrained call builds the bi-objective archive and the
constrained call with both lists absent builds `CMOArchive` with count 2. -/
theorem C4_witness :
    resolve_n_obj (none : Option (List (List Int))) (none : Option (List Int)) none
      = Except.ok 2
    ∧ get_mo_archive true initialState (none : Option (List (List Int))) none
        (none : Option (List Unit)) none
      = (GlobalState.mk (resolvePrecision true initialState.mo).1 initialState.cmo, [],
         Except.ok (MoResult.mk MoDispatch.archive2d none none none
           (resolvePrecision true initialState.mo).2.1
           (resolvePrecision true initialState.mo).2.2))
    ∧ (∀ u : Unit, cmo_pairing_check (none : Option (List (List Int))) none = Except.ok u →
        (get_cmo_archive true initialState (none : Option (List (List Int))) none none
          (none : Option (List Unit)) none 1).2.2
        = Except.ok (CmoResult.mk none none none none 2 1
            (resolvePrecision true initialState.cmo).2.1
            (resolvePrecision true initialState.cmo).2.2))
    ∧ (∀ e : MoError, cmo_pairing_check (none : Option (List (List Int))) none = Except.error e →
        (get_cmo_archive true initialState (none : Option (List (List Int))) none none
          (none : Option (List Unit)) none 1).2.2 = Except.error e) :=
  C4_default_two_dispatch true initialState (none : Option (List (List Int))) none
    (none : Option (List Unit)) 1 rfl

/-- C5: on the constrained entry point, supplying exactly one of the
objective-vector and constraint-vector lists always raises an
`InvalidConfiguration` `ValueError`, as does supplying both with differing
outer lengths; and these pairing checks run after dimension resolution
(a hard resolution error preempts them) and before dispatch (the call
returns no archive). -/
theorem C5_constrained_pairing_checks {A I : Type} (env : Bool) (st : GlobalState)
    (r : Option (List A)) (infos : Option (List I)) (n_obj : Option Nat) (tau : ℚ) :
    (∀ fs : List (List A),
      failsInvalidConfig (get_cmo_archive env st (some fs) none r infos n_obj tau).2.2 = true)
    ∧ (∀ gs : List (List A),
      failsInvalidConfig (get_cmo_archive env st none (some gs) r infos n_obj tau).2.2 = true)
    ∧ (∀ fs gs : List (List A), fs.length ≠ gs.length →
      failsInvalidConfig (get_cmo_archive env st (some fs) (some gs) r infos n_obj tau).2.2 = true)
    ∧ (∀ (f g : Option (List (List A))) (e : MoError),
      mo_resolved_n_obj f r n_obj = Except.error e →
      (get_cmo_archive env st f g r infos n_obj tau).2.2 = Except.error e) := by
  refine ⟨?_, ?_, ?_, ?_⟩
  · intro fs
    rcases h : mo_resolved_n_obj (some fs) r n_obj with e | ⟨ws, n⟩
    · have he := mo_resolved_error_invalid _ _ _ _ h
      simp [get_cmo_archive, h, failsInvalidConfig, he]
    · simp [get_cmo_archive, h, cmo_pairing_check, failsInvalidConfig,
        MoError.isInvalidConfiguration]
  · intro gs
    rcases h : mo_resolved_n_obj (none : Option (List (List A))) r n_obj with e | ⟨ws, n⟩
    · have he := mo_resolved_error_invalid _ _ _ _ h
      simp [get_cmo_archive, h, failsInvalidConfig, he]
    · simp [get_cmo_archive, h, cmo_pairing_check, failsInvalidConfig,
        MoError.isInvalidConfiguration]
  · intro fs gs hlen
    rcases h : mo_resolved_n_obj (some fs) r n_obj with e | ⟨ws, n⟩
    · have he := mo_resolved_error_invalid _ _ _ _ h
      simp [get_cmo_archive, h, failsInvalidConfig, he]
    · simp [get_cmo_archive, h, cmo_pairing_check, failsInvalidConfig,
        MoError.isInvalidConfiguration, hlen]
  · intro f g e h
    simp [get_cmo_archive, h]

/-- C5 witness: an objective list without a constraint list fails with an
`InvalidConfiguration`; two lists of outer lengths 2 and 1 fail likewise;
and a concrete resolution-stage mismatch (first vector of length 2 versus
reference point of length 3) is the error reported even though the
constraint list is also missing. -/
theorem C5_witness :
    failsInvalidConfig (get_cmo_archive true initialState (some [[(1:Int), 2]]) none
        none (none : Option (List Unit)) none 1).2.2 = true
    ∧ failsInvalidConfig (get_cmo_archive true initialState (some [[(1:Int)], [2]])
        (some [[3]]) none (none : Option (List Unit)) none 1).2.2 = true
    ∧ (get_cmo_archive true initialState (some [[(1:Int), 2]]) none (some [1, 2, 3])
        (none : Option (List Unit)) none 1).2.2
      = Except.error (MoError.refVsFvalsMismatch 3 2) :=
  ⟨(C5_constrained_pairing_checks true initialState none (none : Option (List Unit))
      none 1).1 [[(1:Int), 2]],
   (C5_constrained_pairing_checks true initialState none (none : Option (List Unit))
      none 1).2.2.1 [[(1:Int)], [2]] [[3]] (by decide),
   (C5_constrained_pairing_checks true initialState (some [(1:Int), 2, 3])
      (none : Option (List Unit)) none 1).2.2.2 (some [[(1:Int), 2]]) none
      (MoError.refVsFvalsMismatch 3 2) rfl⟩

/-- C6: precision-type caching.  A cache with both slots set is returned
unchanged with its stored pair, whatever the environment; resolving twice
(with any two environments) equals resolving once, so the pair is fixed by
the first call and never re-resolved; and each entry point rewrites only
its own cache slot — `get_mo_archive` leaves the constrained slot alone and
`get_cmo_archive` leaves the unconstrained slot alone. -/
theorem C6_precision_cache_idempotent {A I : Type} :
    (∀ (env : Bool) (a b : FloatType),
      resolvePrecision env (PrecisionCache.mk (some a) (some b))
        = (PrecisionCache.mk (some a) (some b), a, b))
    ∧ (∀ (env env2 : Bool) (c : PrecisionCache),
      resolvePrecision env2 (resolvePrecision env c).1 = resolvePrecision env c)
    ∧ (∀ (env : Bool) (st : GlobalState) (f : Option (List (List A)))
        (r : Option (List A)) (infos : Option (List I)) (n_obj : Option Nat),
      (get_mo_archive env st f r infos n_obj).1
        = GlobalState.mk (resolvePrecision env st.mo).1 st.cmo)
    ∧ (∀ (env : Bool) (st : GlobalState) (f g : Option (List (List A)))
        (r : Option (List A)) (infos : Option (List I)) (n_obj : Option Nat) (tau : ℚ),
      (get_cmo_archive env st f g r infos n_obj tau).1
        = GlobalState.mk st.mo (resolvePrecision env st.cmo).1) := by
  refine ⟨fun env a b => rfl, ?_, fun env st f r infos n_obj => rfl,
    fun env st f g r infos n_obj tau => rfl⟩
  intro env env2 c
  rcases c with ⟨_ | a, _ | b⟩ <;> rfl

/-- C8: the constrained entry point never raises the unsupported-number-of-
objectives error — it does not branch on the resolved count — and whenever
resolution plus validation and the pairing checks succeed it invokes the
single constrained constructor `CMOArchive` with the resolved count, even
for counts outside {2, 3, 4}. -/
theorem C8_constrained_no_dimension_branch {A I : Type} (env : Bool) (st : GlobalState)
    (f g : Option (List (List A))) (r : Option (List A)) (infos : Option (List I))
    (n_obj : Option Nat) (tau : ℚ) :
    (∀ m : Nat, (get_cmo_archive env st f g r infos n_obj tau).2.2
      ≠ Except.error (MoError.unsupportedNObj m))
    ∧ (∀ (ws : List MoWarning) (n : Nat) (u : Unit),
      mo_resolved_n_obj f r n_obj = Except.ok (ws, n) →
      cmo_pairing_check f g = Except.ok u →
      (get_cmo_archive env st f g r infos n_obj tau).2.2
        = Except.ok (CmoResult.mk f g r infos n tau
            (resolvePrecision env st.cmo).2.1 (resolvePrecision env st.cmo).2.2)) := by
  constructor
  · intro m
    rcases h : mo_resolved_n_obj f r n_obj with e | ⟨ws, n⟩
    · have he := mo_resolved_error_invalid _ _ _ _ h
      simp [get_cmo_archive, h]
      intro hcontra
      rw [hcontra] at he
      exact Bool.noConfusion he
    · rcases hp : cmo_pairing_check f g with e2 | u
      · have he2 := cmo_pairing_error_invalid _ _ _ hp
        simp [get_cmo_archive, h, hp]
        intro hcontra
        rw [hcontra] at he2
        exact Bool.noConfusion he2
      · simp [get_cmo_archive, h, hp]
  · intro ws n u h hp
    simp [get_cmo_archive, h, hp]

/-- C8 witness: a single 7-dimensional objective vector with a matching
one-element constraint list passes every check and `CMOArchive` is invoked
with the out-of-{2,3,4} count 7. -/
theorem C8_witness :
    (get_cmo_archive true initialState (some [[(1:Int), 2, 3, 4, 5, 6, 7]]) (some [[0]])
        none (none : Option (List Unit)) none 1).2.2
      = Except.ok (CmoResult.mk (some [[(1:Int), 2, 3, 4, 5, 6, 7]]) (some [[0]]) none
          (none : Option (List Unit)) 7 1
          (resolvePrecision true initialState.cmo).2.1
          (resolvePrecision true initialState.cmo).2.2) :=
  (C8_constrained_no_dimension_branch true initialState (some [[(1:Int), 2, 3, 4, 5, 6, 7]])
    (some [[0]]) none (none : Option (List Unit)) none 1).2 [] 7 () rfl rfl

end Moarchiving
